import Mathlib

/-!
Verification development for the CineGen character-consistency engine
(source: src/main.py). The Python source is shallowly embedded below:
pure validators become Lean functions; the interactive workflows become
functions of the already-collected user inputs; the two remote services
(image generation, vision analysis) are passed in as explicit response
functions, and each workflow additionally returns the list of requests it
issued to the image-generation backend, so that call traces are provable.
-/

namespace CineGen

/-- Opaque stand-in for a raster image returned by the generation backend. -/
structure Image where
  id : Nat
deriving DecidableEq

/-- Source constant FIXED_SAMPLE_COUNT (main.py line 36). -/
def FIXED_SAMPLE_COUNT : Nat := 1

/-- Source constant for the fixed aspect, value "16:9" (main.py line 35);
renamed from the source spelling for tooling reasons. -/
def FIXED_ASPECT : String := "16:9"

/-- Source constant MAX_CHARACTERS_PER_IMAGE (main.py line 41). -/
def MAX_CHARACTERS_PER_IMAGE : Nat := 2

/-- CharacterPackage (main.py lines 43-52): the identity record. -/
structure CharacterPackage where
  name : String
  description : String
  seed : Nat
  negative_prompt : Option String
deriving DecidableEq

/-- The whitespace set of the Python str.strip method (ASCII range). -/
def isPyWhitespace (c : Char) : Bool :=
  c == ' ' || c == '\t' || c == '\n' || c == '\r' || c == '\x0b' || c == '\x0c'

/-- Python str.strip: drop leading and trailing whitespace. -/
def pyStrip (s : String) : String :=
  String.mk (((s.toList.dropWhile isPyWhitespace).reverse.dropWhile
    isPyWhitespace).reverse)

/-- Helper for pySplit: accumulate the current word (reversed) while
scanning the character list. -/
def pySplitAux : List Char → List Char → List String
  | [], acc => if acc.isEmpty then [] else [String.mk acc.reverse]
  | c :: cs, acc =>
    if isPyWhitespace c then
      if acc.isEmpty then pySplitAux cs []
      else String.mk acc.reverse :: pySplitAux cs []
    else pySplitAux cs (c :: acc)

/-- Python str.split with no argument: split on whitespace runs, no empty
words. -/
def pySplit (s : String) : List String := pySplitAux s.toList []

/-- ASCII lowercase of one character, the case Python str.lower performs
on the inputs of interest. -/
def lowChar (c : Char) : Char :=
  if 65 ≤ c.toNat ∧ c.toNat ≤ 90 then Char.ofNat (c.toNat + 32) else c

/-- Python str.lower (ASCII range). -/
def pyLower (s : String) : String := String.mk (s.toList.map lowChar)

/-- Source list invalid_chars (main.py line 64). -/
def invalid_chars : List Char :=
  ['/', '\\', ':', '*', '?', '"', '<', '>', '|', '\n', '\t']

/-- Source set reserved_names (main.py lines 70-72). -/
def reserved_names : List String :=
  ["con", "prn", "aux", "nul", "com1", "com2", "com3", "com4", "com5",
   "com6", "com7", "com8", "com9", "lpt1", "lpt2", "lpt3", "lpt4",
   "lpt5", "lpt6", "lpt7", "lpt8", "lpt9"]

/-- The source loop over invalid_chars (main.py lines 65-67): first listed
character occurring in the name, if any. -/
def find_invalid_char (name : String) : List Char → Option Char
  | [] => none
  | c :: cs =>
    if name.toList.contains c then some c else find_invalid_char name cs

/-- validate_character_name (main.py lines 54-76). -/
def validate_character_name (name : String) : Bool × String :=
  if pyStrip name = "" then (false, "Character name cannot be empty")
  else
    let name := pyStrip name
    if name.length > 50 then
      (false, "Character name too long (max 50 characters)")
    else
      match find_invalid_char name invalid_chars with
      | some c =>
        (false, "Character name contains invalid character: " ++
          String.mk [c])
      | none =>
        if reserved_names.contains (pyLower name) then
          (false, "Character name is a reserved system name")
        else (true, "")

/-- Count lookup in the word_count dict (main.py line 96): most recent
entry for the key, zero when absent. -/
def lookupCount (m : List (String × Nat)) (k : String) : Nat :=
  match m.lookup k with
  | some n => n
  | none => 0

/-- The repetition loop of validate_description (main.py lines 93-98):
returns true when some running lower-cased word count exceeds 5. -/
def repetitionLoop : List String → List (String × Nat) → Bool
  | [], _ => false
  | w :: ws, m =>
    let k := pyLower w
    let n := lookupCount m k + 1
    if n > 5 then true else repetitionLoop ws ((k, n) :: m)

/-- validate_description (main.py lines 78-100). -/
def validate_description (description : String) : Bool × String :=
  if pyStrip description = "" then (false, "Description cannot be empty")
  else
    let description := pyStrip description
    if description.length < 10 then
      (false, "Description too short (minimum 10 characters)")
    else if description.length > 1000 then
      (false, "Description too long (max 1000 characters)")
    else if repetitionLoop (pySplit description) [] then
      (false, "Description contains too much repetition")
    else (true, "")

/-- validate_negative_prompt (main.py lines 102-111). -/
def validate_negative_prompt (negative_prompt : String) : Bool × String :=
  if pyStrip negative_prompt = "" then (true, "")
  else
    let negative_prompt := pyStrip negative_prompt
    if negative_prompt.length > 500 then
      (false, "Negative prompt too long (max 500 characters)")
    else (true, "")

/-- One request to the image-generation service, with the keyword
arguments the source passes at main.py lines 341-348. Fields the source
never passes (the prompt-enhancement switch) are recorded as none,
meaning the backend default applies. -/
structure GenRequest where
  prompt : String
  number_of_images : Nat
  seed : Nat
  aspect : String
  negative_prompt : Option String
  add_watermark : Bool
  enhance_prompt : Option Bool
deriving DecidableEq

/-- The request generate_image builds (main.py lines 341-348): the only
per-call data are prompt, seed and negative prompt. -/
def mkGenRequest (prompt : String) (seed : Nat)
    (negative_prompt : Option String) : GenRequest :=
  ⟨prompt, FIXED_SAMPLE_COUNT, seed, FIXED_ASPECT, negative_prompt,
    false, none⟩

/-- generate_image (main.py lines 323-370). The remote model call is the
respond argument; the return value is the Optional image together with
the trace of backend requests issued and the lines logged by the except
handler. File persistence (lines 351-365) touches only the filesystem and
is outside the modelled state. -/
def generate_image (prompt : String) (seed : Nat)
    (negative_prompt : Option String)
    (respond : GenRequest → Except String Image) :
    Option Image × List GenRequest × List String :=
  let req := mkGenRequest prompt seed negative_prompt
  match respond req with
  | Except.ok img => (some img, [req], [])
  | Except.error e =>
    (none, [req], ["!! An error occurred during image generation: " ++ e])

/-- Python random.randint(lo, hi), inclusive on both ends, modelled on an
arbitrary entropy value r. -/
def randint (lo hi r : Nat) : Nat := lo + r % (hi - lo + 1)

/-- create_character (main.py lines 372-446), as a function of the texts
the user typed (name_input is the raw line, stripped at line 381;
description is the multiline input; negative_prompt_input the raw line,
stripped at line 416), the entropy r for the seed draw at line 433, and
the backend. Returns the character list after the workflow and the trace
of generation requests issued. -/
def create_character (chars : List CharacterPackage) (name_input : String)
    (description : String) (negative_prompt_input : String) (r : Nat)
    (respond : GenRequest → Except String Image) :
    List CharacterPackage × List GenRequest :=
  let name := pyStrip name_input
  if (validate_character_name name).1 = false then (chars, [])
  else if description = "" then (chars, [])
  else if (validate_description description).1 = false then (chars, [])
  else
    let negative_prompt := pyStrip negative_prompt_input
    if (validate_negative_prompt negative_prompt).1 = false then (chars, [])
    else
      let negative_prompt : Option String :=
        if negative_prompt = "" then none else some negative_prompt
      let seed := randint 0 (2 ^ 32 - 1) r
      let stage1_prompt :=
        "cinematic portrait, high detail, studio lighting. " ++ description
      match generate_image stage1_prompt seed negative_prompt respond with
      | (some _, reqs, _) =>
        (chars ++ [⟨name, description, seed, negative_prompt⟩], reqs)
      | (none, reqs, _) => (chars, reqs)

/-- Value returned by json.loads: the JSON data model. -/
inductive Json where
  | null : Json
  | bool : Bool → Json
  | num : Int → Json
  | str : String → Json
  | arr : List Json → Json
  | obj : List (String × Json) → Json

/-- Outcome of the Gemini remote call in analyze_reference_image: either
the call raised (caught at main.py line 272) or it returned a response
whose text field is the given string. -/
inductive VisionOutcome where
  | error : String → VisionOutcome
  | response : String → VisionOutcome

/-- analyze_reference_image (main.py lines 218-274), from the remote call
outcome on. The json.loads standard-library parser is the loads argument
(none models a JSONDecodeError). On parse success the parsed value is
returned unchanged (line 265-266); on parse failure the whole raw text
becomes one medium-confidence candidate (line 270); on a raised remote
error the result is the empty list (line 274). -/
def analyze_reference_image (loads : String → Option Json)
    (outcome : VisionOutcome) : Json :=
  match outcome with
  | VisionOutcome.error _ => Json.arr []
  | VisionOutcome.response text =>
    match loads text with
    | some characters => characters
    | none =>
      Json.arr [Json.obj
        [("description", Json.str text), ("confidence", Json.str "medium")]]

/-- Python dict.get with a string default, as used on the selected
candidate (main.py lines 517-526); the model restricts candidate
description values to JSON strings. -/
def pyGetStr (j : Json) (k : String) (default : String) : String :=
  match j with
  | Json.obj kvs =>
    match kvs.lookup k with
    | some (Json.str s) => s
    | _ => default
  | _ => default

/-- create_character_from_reference (main.py lines 448-569), as a function
of: whether the API key is configured (line 458), the image path chosen
(none when the upload was cancelled, line 466), the candidate list the
analysis produced (line 474; the model takes the usual list shape),
the parsed selection number when several candidates exist (line 493,
none when int raised), the raw name line (stripped at line 507), the
edit choice line (line 523), the edited multiline description (line 529),
the raw negative-prompt line (line 543), the entropy r for the seed draw
at line 560, and the backend. Returns the character list after the
workflow and the trace of generation requests issued. -/
def create_character_from_reference (chars : List CharacterPackage)
    (api_key_present : Bool) (image_path : Option String)
    (characters : List Json) (choice_input : Option Int)
    (name_input edit_choice edited_description
      negative_prompt_input : String) (r : Nat)
    (respond : GenRequest → Except String Image) :
    List CharacterPackage × List GenRequest :=
  if api_key_present = false then (chars, [])
  else
    match image_path with
    | none => (chars, [])
    | some _ =>
      if characters.isEmpty then (chars, [])
      else
        let selected :=
          if characters.length > 1 then
            match choice_input with
            | none => none
            | some n =>
              let choice := n - 1
              if 0 ≤ choice ∧ choice < (characters.length : Int) then
                characters.get? choice.toNat
              else none
          else characters.get? 0
        match selected with
        | none => (chars, [])
        | some selected_char =>
          let name := pyStrip name_input
          if (validate_character_name name).1 = false then (chars, [])
          else
            let description :=
              if pyLower (pyStrip edit_choice) = "use" then
                pyGetStr selected_char "description" ""
              else edited_description
            if (validate_description description).1 = false then (chars, [])
            else
              let negative_prompt := pyStrip negative_prompt_input
              if (validate_negative_prompt negative_prompt).1 = false then
                (chars, [])
              else
                let negative_prompt : Option String :=
                  if negative_prompt = "" then none else some negative_prompt
                let seed := randint 0 (2 ^ 32 - 1) r
                let stage1_prompt :=
                  "cinematic portrait, high detail, studio lighting. " ++
                    description
                match generate_image stage1_prompt seed negative_prompt
                    respond with
                | (some _, reqs, _) =>
                  (chars ++ [⟨name, description, seed, negative_prompt⟩],
                    reqs)
                | (none, reqs, _) => (chars, reqs)

/-- The selection step of generate_scene (main.py lines 588-595): the
typed line parsed by int is the sel argument (none when int raised); the
source computes char_index = sel - 1 and requires 0 <= char_index < len,
else the operation is cancelled. -/
def select_character (chars : List CharacterPackage) (sel : Option Int) :
    Option CharacterPackage :=
  match sel with
  | none => none
  | some n =>
    let char_index := n - 1
    if 0 ≤ char_index ∧ char_index < (chars.length : Int) then
      chars.get? char_index.toNat
    else none

/-- generate_scene (main.py lines 571-634), as a function of the parsed
character selection and the multiline scene description. Returns the
trace of generation requests issued, and the character list as it stands
after the workflow (the source never modifies it here). -/
def generate_scene (chars : List CharacterPackage) (sel : Option Int)
    (scene_description : String)
    (respond : GenRequest → Except String Image) :
    List GenRequest × List CharacterPackage :=
  if chars.isEmpty then ([], chars)
  else
    match select_character chars sel with
    | none => ([], chars)
    | some selected_char =>
      if (validate_description scene_description).1 = false then ([], chars)
      else
        let stage2_prompt :=
          selected_char.description ++ ". " ++ scene_description
        ((generate_image stage2_prompt selected_char.seed
            selected_char.negative_prompt respond).2.1, chars)

/-- Number of occurrences of the lower-cased word k in the word list,
the count the spec speaks about when it limits word repetition. -/
def countLower (ws : List String) (k : String) : Nat :=
  (ws.filter (fun w => pyLower w == k)).length

/-- The trace of generate_image is always exactly one request, whatever
the backend answers. -/
theorem generate_image_trace (prompt : String) (seed : Nat)
    (negative_prompt : Option String)
    (respond : GenRequest → Except String Image) :
    (generate_image prompt seed negative_prompt respond).2.1 =
      [mkGenRequest prompt seed negative_prompt] := by
  cases h : respond (mkGenRequest prompt seed negative_prompt) <;>
    simp [generate_image, h]

/-- The invalid-character loop returns none exactly when no listed
character occurs in the name. -/
theorem find_invalid_char_eq_none (s : String) (l : List Char) :
    find_invalid_char s l = none ↔ ∀ c ∈ l, c ∉ s.data := by
  induction l with
  | nil => simp [find_invalid_char]
  | cons c cs ih =>
    by_cases h : c ∈ s.data
    · simp [find_invalid_char, h]
    · simp [find_invalid_char, h, ih]

/-- Unfolding countLower over a cons cell. -/
theorem countLower_cons (u : String) (rest : List String) (k : String) :
    countLower (u :: rest) k =
      (if pyLower u = k then 1 else 0) + countLower rest k := by
  by_cases h : pyLower u = k
  · simp [countLower, List.filter_cons, h, Nat.add_comm]
  · simp [countLower, List.filter_cons, h]

/-- Unfolding lookupCount over a cons cell. -/
theorem lookupCount_cons (a : String) (n : Nat) (m : List (String × Nat))
    (k : String) :
    lookupCount ((a, n) :: m) k = if k = a then n else lookupCount m k := by
  by_cases h : k = a
  · have hbeq : (k == a) = true := by simpa [beq_iff_eq] using h
    simp [lookupCount, List.lookup, hbeq, h]
  · have hbeq : (k == a) = false := by
      simpa [beq_eq_false_iff_ne] using h
    simp [lookupCount, List.lookup, hbeq, h]

/-- A positive lower-cased count yields a witnessing word in the list. -/
theorem exists_of_countLower_pos (ws : List String) (k : String)
    (h : 0 < countLower ws k) : ∃ w ∈ ws, pyLower w = k := by
  have hne : ws.filter (fun w => pyLower w == k) ≠ [] := by
    intro hnil
    rw [countLower, hnil] at h
    exact Nat.lt_irrefl 0 h
  obtain ⟨w, hw⟩ := List.exists_mem_of_ne_nil _ hne
  have hw2 := List.mem_filter.mp hw
  exact ⟨w, hw2.1, by simpa using hw2.2⟩

/-- If some word of the list reaches a total lower-cased count above 5
(including what the running dictionary already holds), the repetition
loop fires. -/
theorem repetitionLoop_true_of_count (ws : List String) :
    ∀ (m : List (String × Nat)) (k : String),
      (∃ w ∈ ws, pyLower w = k) →
      5 < lookupCount m k + countLower ws k →
      repetitionLoop ws m = true := by
  induction ws with
  | nil =>
    intro m k hex _
    rcases hex with ⟨w, hw, _⟩
    cases hw
  | cons u rest ih =>
    intro m k hex hcount
    by_cases h5 : 5 < lookupCount m (pyLower u) + 1
    · simp [repetitionLoop, h5]
    · have hstep : repetitionLoop (u :: rest) m =
          repetitionLoop rest ((pyLower u, lookupCount m (pyLower u) + 1) :: m) := by
        simp [repetitionLoop, h5]
      rw [hstep]
      rcases hex with ⟨w, hw, hwk⟩
      rw [countLower_cons] at hcount
      by_cases hk : k = pyLower u
      · have hlk : lookupCount ((pyLower u, lookupCount m (pyLower u) + 1) :: m) k =
            lookupCount m (pyLower u) + 1 := by
          rw [lookupCount_cons, if_pos hk]
        have hcnt : (if pyLower u = k then 1 else 0) = 1 := by
          rw [if_pos hk.symm]
        rw [hcnt] at hcount
        have hrest : 0 < countLower rest k := by
          subst hk
          omega
        obtain ⟨v, hv, hvk⟩ := exists_of_countLower_pos rest k hrest
        apply ih _ k ⟨v, hv, hvk⟩
        rw [hlk]
        subst hk
        omega
      · have hlk : lookupCount ((pyLower u, lookupCount m (pyLower u) + 1) :: m) k =
            lookupCount m k := by
          rw [lookupCount_cons, if_neg hk]
        have hcnt : (if pyLower u = k then 1 else 0) = 0 := by
          rw [if_neg (fun he => hk he.symm)]
        rw [hcnt] at hcount
        have hwrest : w ∈ rest := by
          rcases List.mem_cons.mp hw with he | hr
          · exact absurd hwk (by rw [he]; exact fun he2 => hk he2.symm)
          · exact hr
        apply ih _ k ⟨w, hwrest, hwk⟩
        rw [hlk]
        omega

/-- A one-based selection whose zero-based index holds character c
resolves to c. -/
theorem select_character_nat (chars : List CharacterPackage) (i : Nat)
    (c : CharacterPackage) (hc : chars.get? i = some c) :
    select_character chars (some ((i : Int) + 1)) = some c := by
  have hi : i < chars.length := by
    by_contra hge
    rw [List.get?_eq_none.mpr (Nat.le_of_not_lt hge)] at hc
    cases hc
  have h1 : ((i : Int) + 1 - 1) = (i : Int) := by omega
  have h2 : (0 : Int) ≤ (i : Int) ∧ (i : Int) < (chars.length : Int) := by
    constructor
    · exact Int.ofNat_nonneg i
    · exact_mod_cast hi
  simp only [select_character, h1]
  rw [if_pos h2]
  simpa using hc

/-- C1, counterexample: the Generation Gateway does not disable the
automatic prompt-rewriting/enhancement feature: the request built for the
concrete call (prompt "a portrait", seed 0, no negative prompt) carries
no value for that switch, rather than the disabled setting the claim
requires. -/
theorem c1_counterexample :
    ¬ ((mkGenRequest "a portrait" 0 none).enhance_prompt = some false) := by
  decide

/-- C1, amended: every call the Generation Gateway makes requests exactly
one image (sample count 1) at the fixed aspect "16:9" with the backend
watermarking feature disabled; the prompt-rewriting/enhancement switch is
never set (the backend default applies); none of these parameters varies
with the per-call data (prompt, seed, negative prompt). -/
theorem c1_fixed_request_parameters (prompt : String) (seed : Nat)
    (negative_prompt : Option String)
    (respond : GenRequest → Except String Image) :
    (generate_image prompt seed negative_prompt respond).2.1 =
      [mkGenRequest prompt seed negative_prompt]
    ∧ (mkGenRequest prompt seed negative_prompt).number_of_images = 1
    ∧ (mkGenRequest prompt seed negative_prompt).aspect = "16:9"
    ∧ (mkGenRequest prompt seed negative_prompt).add_watermark = false
    ∧ (mkGenRequest prompt seed negative_prompt).enhance_prompt = none := by
  refine ⟨generate_image_trace prompt seed negative_prompt respond,
    rfl, rfl, rfl, rfl⟩

/-- C4: when the remote call fails with any error, generate_image returns
the explicit failure marker none, issues exactly one backend request (no
retry), and logs exactly one human-readable line; the backend error is
not propagated. -/
theorem c4_gateway_error_handling (prompt : String) (seed : Nat)
    (negative_prompt : Option String)
    (respond : GenRequest → Except String Image) (e : String)
    (h : respond (mkGenRequest prompt seed negative_prompt) =
      Except.error e) :
    generate_image prompt seed negative_prompt respond =
      (none, [mkGenRequest prompt seed negative_prompt],
        ["!! An error occurred during image generation: " ++ e]) := by
  simp [generate_image, h]

/-- C4 witness: a concrete failing backend call. -/
theorem c4_witness :
    generate_image "a portrait" 9 none (fun _ => Except.error "quota") =
      (none, [mkGenRequest "a portrait" 9 none],
        ["!! An error occurred during image generation: " ++ "quota"]) :=
  c4_gateway_error_handling "a portrait" 9 none
    (fun _ => Except.error "quota") "quota" rfl

/-- C5: when the response body fails the JSON parse, the extraction
pipeline returns exactly one candidate whose description is the whole raw
text and whose confidence is "medium"; when the remote call itself
errors, it returns the empty sequence. -/
theorem c5_extraction_fallbacks (loads : String → Option Json)
    (text e : String) :
    (loads text = none →
      analyze_reference_image loads (VisionOutcome.response text) =
        Json.arr [Json.obj [("description", Json.str text),
          ("confidence", Json.str "medium")]])
    ∧ analyze_reference_image loads (VisionOutcome.error e) =
        Json.arr [] := by
  constructor
  · intro h
    simp [analyze_reference_image, h]
  · rfl

/-- C5 witness: a concrete non-JSON response body. -/
theorem c5_witness :
    analyze_reference_image (fun _ => none)
        (VisionOutcome.response "plain text, not JSON") =
      Json.arr [Json.obj [("description", Json.str "plain text, not JSON"),
        ("confidence", Json.str "medium")]] :=
  (c5_extraction_fallbacks (fun _ => none) "plain text, not JSON" "").1 rfl

/-- C10: when the response body does parse as JSON, the extraction
pipeline returns the parsed value unchanged, with no truncation to the
requested maximum of 2 candidates and no validation of candidate shape. -/
theorem c10_parsed_response_returned_as_is (loads : String → Option Json)
    (text : String) (j : Json) (h : loads text = some j) :
    analyze_reference_image loads (VisionOutcome.response text) = j := by
  simp [analyze_reference_image, h]

/-- C10 witness: a parsed array of three shapeless candidates (more than
the requested 2, without description or confidence keys) is returned
exactly as parsed. -/
theorem c10_witness :
    analyze_reference_image
        (fun _ => some (Json.arr [Json.str "a", Json.str "b", Json.str "c"]))
        (VisionOutcome.response "whatever") =
      Json.arr [Json.str "a", Json.str "b", Json.str "c"] :=
  c10_parsed_response_returned_as_is
    (fun _ => some (Json.arr [Json.str "a", Json.str "b", Json.str "c"]))
    "whatever" (Json.arr [Json.str "a", Json.str "b", Json.str "c"]) rfl

/-- C2, counterexample: with the character whose stored description is
"A tall woman with long red hair" selected, the scene request prompt is
the description, the separator ". " and the scene text, not the plain
concatenation of description and scene text the claim states. -/
theorem c2_counterexample :
    ((generate_scene [⟨"Ava", "A tall woman with long red hair", 7, none⟩]
        (some 1) "Standing in a busy city street at night"
        (fun _ => Except.ok ⟨0⟩)).1.map GenRequest.prompt =
      ["A tall woman with long red hair. Standing in a busy city street at night"])
    ∧ ¬ ((generate_scene [⟨"Ava", "A tall woman with long red hair", 7, none⟩]
        (some 1) "Standing in a busy city street at night"
        (fun _ => Except.ok ⟨0⟩)).1.map GenRequest.prompt =
      ["A tall woman with long red hair" ++
        "Standing in a busy city street at night"]) := by
  constructor
  · decide
  · decide

/-- C2, amended: for every scene generation with a selected existing
CharacterPackage, the request is issued with prompt equal to the stored
description, the separator ". ", then the scene description, with the
stored seed and the stored negative prompt; two invocations with
different scene text both carry the stored seed. -/
theorem c2_scene_uses_stored_identity (chars : List CharacterPackage)
    (i : Nat) (c : CharacterPackage) (s₁ s₂ : String)
    (respond : GenRequest → Except String Image)
    (hc : chars.get? i = some c)
    (h₁ : (validate_description s₁).1 = true)
    (h₂ : (validate_description s₂).1 = true) :
    (generate_scene chars (some ((i : Int) + 1)) s₁ respond).1 =
      [mkGenRequest (c.description ++ ". " ++ s₁) c.seed c.negative_prompt]
    ∧ (generate_scene chars (some ((i : Int) + 1)) s₂ respond).1 =
      [mkGenRequest (c.description ++ ". " ++ s₂) c.seed c.negative_prompt]
    ∧ (generate_scene chars (some ((i : Int) + 1)) s₁ respond).1.map
        GenRequest.seed =
      (generate_scene chars (some ((i : Int) + 1)) s₂ respond).1.map
        GenRequest.seed := by
  have hne : chars.isEmpty = false := by
    cases chars with
    | nil => cases hc
    | cons a l => rfl
  have hsel := select_character_nat chars i c hc
  have key : ∀ s : String, (validate_description s).1 = true →
      (generate_scene chars (some ((i : Int) + 1)) s respond).1 =
        [mkGenRequest (c.description ++ ". " ++ s) c.seed
          c.negative_prompt] := by
    intro s hs
    unfold generate_scene
    rw [hne]
    simp only [Bool.false_eq_true, if_false, hsel, hs]
    simp [generate_image_trace]
  refine ⟨key s₁ h₁, key s₂ h₂, ?_⟩
  rw [key s₁ h₁, key s₂ h₂]
  rfl

/-- C2 witness: two concrete scene generations for the same stored
character, with different scene text, both issue their request with the
stored seed 7. -/
theorem c2_witness :
    (generate_scene [⟨"Ava", "A tall woman with long red hair", 7, none⟩]
        (some 1) "Standing in a busy city street at night"
        (fun _ => Except.ok ⟨0⟩)).1.map GenRequest.seed =
      (generate_scene [⟨"Ava", "A tall woman with long red hair", 7, none⟩]
        (some 1) "Sitting at a quiet table reading a book"
        (fun _ => Except.ok ⟨0⟩)).1.map GenRequest.seed :=
  (c2_scene_uses_stored_identity
    [⟨"Ava", "A tall woman with long red hair", 7, none⟩] 0
    ⟨"Ava", "A tall woman with long red hair", 7, none⟩
    "Standing in a busy city street at night"
    "Sitting at a quiet table reading a book"
    (fun _ => Except.ok ⟨0⟩) rfl (by decide) (by decide)).2.2

/-- C6: with a non-empty character list, a missing or non-numeric selection,
selection 0, selection length + 1, and every other out-of-range selection
leave the state unchanged and issue no generation request; a selection in
[1, length] resolves to the character at that 1-based position. -/
theorem c6_selection_guard (chars : List CharacterPackage) (scene : String)
    (respond : GenRequest → Except String Image) (hne : chars ≠ []) :
    generate_scene chars none scene respond = ([], chars)
    ∧ generate_scene chars (some 0) scene respond = ([], chars)
    ∧ generate_scene chars (some ((chars.length : Int) + 1)) scene respond =
        ([], chars)
    ∧ (∀ n : Int, (n < 1 ∨ (chars.length : Int) < n) →
        generate_scene chars (some n) scene respond = ([], chars))
    ∧ (∀ k : Nat, 1 ≤ k → k ≤ chars.length →
        select_character chars (some (k : Int)) = chars.get? (k - 1)) := by
  have hemp : chars.isEmpty = false := by
    cases chars with
    | nil => exact absurd rfl hne
    | cons a l => rfl
  have hnone : generate_scene chars none scene respond = ([], chars) := by
    unfold generate_scene
    rw [hemp]
    simp [select_character]
  have hout : ∀ n : Int, (n < 1 ∨ (chars.length : Int) < n) →
      generate_scene chars (some n) scene respond = ([], chars) := by
    intro n hn
    have hsel : select_character chars (some n) = none := by
      simp only [select_character]
      rw [if_neg]
      intro hcond
      omega
    unfold generate_scene
    rw [hemp]
    simp [hsel]
  have hin : ∀ k : Nat, 1 ≤ k → k ≤ chars.length →
      select_character chars (some (k : Int)) = chars.get? (k - 1) := by
    intro k hk1 hk2
    simp only [select_character]
    have hcond : (0 : Int) ≤ (k : Int) - 1 ∧
        (k : Int) - 1 < (chars.length : Int) := by omega
    rw [if_pos hcond]
    have htn : ((k : Int) - 1).toNat = k - 1 := by omega
    rw [htn]
  refine ⟨hnone, hout 0 (by omega), hout ((chars.length : Int) + 1)
    (by omega), hout, hin⟩

/-- C6 witness: a concrete one-element list, with selections 0 and 2
rejected without a request, and selection 1 resolving to the stored
character. -/
theorem c6_witness :
    generate_scene [⟨"Ava", "A tall woman with long red hair", 7, none⟩]
        (some 0) "Standing in a busy city street at night"
        (fun _ => Except.ok ⟨0⟩) =
      ([], [⟨"Ava", "A tall woman with long red hair", 7, none⟩]) :=
  (c6_selection_guard
    [⟨"Ava", "A tall woman with long red hair", 7, none⟩]
    "Standing in a busy city street at night"
    (fun _ => Except.ok ⟨0⟩) (by decide)).2.1

/-- C9: a scene description failing the full description validation
aborts scene generation before any Generation Gateway request, for every
selection, leaving the character list unchanged. -/
theorem c9_scene_description_validated (chars : List CharacterPackage)
    (sel : Option Int) (scene : String)
    (respond : GenRequest → Except String Image)
    (h : (validate_description scene).1 = false) :
    generate_scene chars sel scene respond = ([], chars) := by
  unfold generate_scene
  by_cases hemp : chars.isEmpty = true
  · rw [if_pos hemp]
  · rw [if_neg hemp]
    cases hsel : select_character chars sel with
    | none => simp
    | some c => simp [h]

/-- C9 witness: the scene text "short" (below the 10-character minimum)
aborts scene generation with no request, although the selection is valid. -/
theorem c9_witness :
    generate_scene [⟨"Ava", "A tall woman with long red hair", 7, none⟩]
        (some 1) "short" (fun _ => Except.ok ⟨0⟩) =
      ([], [⟨"Ava", "A tall woman with long red hair", 7, none⟩]) :=
  c9_scene_description_validated
    [⟨"Ava", "A tall woman with long red hair", 7, none⟩]
    (some 1) "short" (fun _ => Except.ok ⟨0⟩) (by decide)

/-- C3: in both create-character workflows, once all validations pass,
the freshly drawn seed lies in [0, 2 ^ 32 - 1] and a new CharacterPackage
carrying that seed is appended exactly when the portrait generation call
succeeds; on generation failure the session list is unchanged. -/
theorem c3_append_iff_generation_success (chars : List CharacterPackage)
    (name_input description negative_prompt_input : String) (r : Nat)
    (respond : GenRequest → Except String Image)
    (h1 : (validate_character_name (pyStrip name_input)).1 = true)
    (h2 : description ≠ "")
    (h3 : (validate_description description).1 = true)
    (h4 : (validate_negative_prompt (pyStrip negative_prompt_input)).1 =
      true) :
    randint 0 (2 ^ 32 - 1) r ≤ 2 ^ 32 - 1
    ∧ (∀ img : Image,
        respond (mkGenRequest
          ("cinematic portrait, high detail, studio lighting. " ++
            description) (randint 0 (2 ^ 32 - 1) r)
          (if pyStrip negative_prompt_input = "" then none
           else some (pyStrip negative_prompt_input))) = Except.ok img →
        (create_character chars name_input description
          negative_prompt_input r respond).1 =
          chars ++ [⟨pyStrip name_input, description,
            randint 0 (2 ^ 32 - 1) r,
            if pyStrip negative_prompt_input = "" then none
            else some (pyStrip negative_prompt_input)⟩])
    ∧ (∀ e : String,
        respond (mkGenRequest
          ("cinematic portrait, high detail, studio lighting. " ++
            description) (randint 0 (2 ^ 32 - 1) r)
          (if pyStrip negative_prompt_input = "" then none
           else some (pyStrip negative_prompt_input))) = Except.error e →
        (create_character chars name_input description
          negative_prompt_input r respond).1 = chars)
    ∧ (∀ (selected : Json) (img : Image),
        respond (mkGenRequest
          ("cinematic portrait, high detail, studio lighting. " ++
            description) (randint 0 (2 ^ 32 - 1) r)
          (if pyStrip negative_prompt_input = "" then none
           else some (pyStrip negative_prompt_input))) = Except.ok img →
        (create_character_from_reference chars true (some "ref.png")
          [selected] none name_input "edit" description
          negative_prompt_input r respond).1 =
          chars ++ [⟨pyStrip name_input, description,
            randint 0 (2 ^ 32 - 1) r,
            if pyStrip negative_prompt_input = "" then none
            else some (pyStrip negative_prompt_input)⟩])
    ∧ (∀ (selected : Json) (e : String),
        respond (mkGenRequest
          ("cinematic portrait, high detail, studio lighting. " ++
            description) (randint 0 (2 ^ 32 - 1) r)
          (if pyStrip negative_prompt_input = "" then none
           else some (pyStrip negative_prompt_input))) = Except.error e →
        (create_character_from_reference chars true (some "ref.png")
          [selected] none name_input "edit" description
          negative_prompt_input r respond).1 = chars) := by
  have hedit : pyLower (pyStrip "edit") = "edit" := by decide
  refine ⟨?_, ?_, ?_, ?_, ?_⟩
  · unfold randint
    have hlt : r % (2 ^ 32 - 1 - 0 + 1) < 2 ^ 32 - 1 - 0 + 1 :=
      Nat.mod_lt r (by norm_num)
    omega
  · intro img himg
    norm_num at himg
    simp [create_character, generate_image, h1, h2, h3, h4, himg]
  · intro e he
    norm_num at he
    simp [create_character, generate_image, h1, h2, h3, h4, he]
  · intro selected img himg
    norm_num at himg
    simp [create_character_from_reference, generate_image, h1, h3, h4,
      hedit, himg]
  · intro selected e he
    norm_num at he
    simp [create_character_from_reference, generate_image, h1, h3, h4,
      hedit, he]

/-- C3 witness: a concrete successful creation appends exactly one
package with the drawn seed, and the same creation against a failing
backend leaves the list empty. -/
theorem c3_witness :
    (create_character [] "Ava" "A tall woman with long red hair" "" 7
        (fun _ => Except.ok ⟨0⟩)).1 =
      [⟨"Ava", "A tall woman with long red hair", 7, none⟩]
    ∧ (create_character [] "Ava" "A tall woman with long red hair" "" 7
        (fun _ => Except.error "quota")).1 = [] := by
  constructor
  · have h := c3_append_iff_generation_success []
      "Ava" "A tall woman with long red hair" "" 7
      (fun _ => Except.ok ⟨0⟩) (by decide) (by decide) (by decide)
      (by decide)
    exact (h.2.1 ⟨0⟩ rfl).trans (by decide)
  · have h := c3_append_iff_generation_success []
      "Ava" "A tall woman with long red hair" "" 7
      (fun _ => Except.error "quota") (by decide) (by decide) (by decide)
      (by decide)
    exact h.2.2.1 "quota" rfl

/-- C7, counterexample: the name "abc" followed by a newline contains the
listed newline character, yet validate_character_name accepts it, because
the check runs on the stripped name. -/
theorem c7_counterexample :
    '\n' ∈ invalid_chars ∧ '\n' ∈ "abc\n".data
    ∧ (validate_character_name "abc\n").1 = true := by
  refine ⟨by decide, by decide, by decide⟩

/-- C7, amended: validate_character_name applies its rules to the
whitespace-stripped name: it rejects names whose stripped form is empty,
longer than 50 characters, contains a listed invalid character, or
case-insensitively equals a reserved device name; it accepts "Dr. Watson"
and "Agent 007". -/
theorem c7_name_validation_on_stripped (name : String) :
    (pyStrip name = "" → (validate_character_name name).1 = false)
    ∧ ((pyStrip name).length > 50 →
        (validate_character_name name).1 = false)
    ∧ (∀ c ∈ invalid_chars, c ∈ (pyStrip name).data →
        (validate_character_name name).1 = false)
    ∧ (pyLower (pyStrip name) ∈ reserved_names →
        (validate_character_name name).1 = false)
    ∧ (validate_character_name "Dr. Watson").1 = true
    ∧ (validate_character_name "Agent 007").1 = true := by
  refine ⟨?_, ?_, ?_, ?_, by decide, by decide⟩
  · intro h
    simp [validate_character_name, h]
  · intro h
    by_cases h1 : pyStrip name = ""
    · simp [validate_character_name, h1]
    · simp [validate_character_name, h1, h]
  · intro c hc hmem
    by_cases h1 : pyStrip name = ""
    · simp [validate_character_name, h1]
    · by_cases h2 : (pyStrip name).length > 50
      · simp [validate_character_name, h1, h2]
      · cases hfind : find_invalid_char (pyStrip name) invalid_chars with
        | some d => simp [validate_character_name, h1, h2, hfind]
        | none =>
          exact absurd hmem ((find_invalid_char_eq_none _ _).mp hfind c hc)
  · intro h
    by_cases h1 : pyStrip name = ""
    · simp [validate_character_name, h1]
    · by_cases h2 : (pyStrip name).length > 50
      · simp [validate_character_name, h1, h2]
      · cases hfind : find_invalid_char (pyStrip name) invalid_chars with
        | some d => simp [validate_character_name, h1, h2, hfind]
        | none => simp [validate_character_name, h1, h2, hfind, h]

/-- C7 witness: the reserved name "LPT1" padded with spaces is rejected
through the reserved-name rule of the theorem. -/
theorem c7_witness : (validate_character_name " LPT1 ").1 = false :=
  (c7_name_validation_on_stripped " LPT1 ").2.2.2.1 (by decide)

set_option maxRecDepth 600000 in
/-- C8, counterexample: a text of 1001 characters (1000 letters and one
trailing space) is longer than 1000 characters, yet validate_description
accepts it, because the length check runs on the stripped text. -/
theorem c8_counterexample :
    (String.mk (List.replicate 1000 'a' ++ [' '])).length = 1001
    ∧ (validate_description
        (String.mk (List.replicate 1000 'a' ++ [' ']))).1 = true := by
  constructor
  · decide
  · decide

/-- C8, amended: validate_description applies its rules to the
whitespace-stripped text: it rejects texts whose stripped form is empty,
shorter than 10 or longer than 1000 characters, or has a single word
(case-insensitive, whitespace-split) occurring more than 5 times; it
rejects "short" and the six-fold "red" example and accepts a 50-character
descriptive sentence. -/
theorem c8_description_validation_on_stripped (text : String) :
    (pyStrip text = "" → (validate_description text).1 = false)
    ∧ ((pyStrip text).length < 10 → (validate_description text).1 = false)
    ∧ ((pyStrip text).length > 1000 →
        (validate_description text).1 = false)
    ∧ (∀ w ∈ pySplit (pyStrip text),
        5 < countLower (pySplit (pyStrip text)) (pyLower w) →
        (validate_description text).1 = false)
    ∧ (validate_description "short").1 = false
    ∧ (validate_description "red red red red red red hair").1 = false
    ∧ (validate_description
        "Tall woman with red hair wearing a leather jacket.").1 = true := by
  refine ⟨?_, ?_, ?_, ?_, by decide, by decide, by decide⟩
  · intro h
    simp [validate_description, h]
  · intro h
    by_cases h1 : pyStrip text = ""
    · simp [validate_description, h1]
    · simp [validate_description, h1, h]
  · intro h
    by_cases h1 : pyStrip text = ""
    · simp [validate_description, h1]
    · have hlt : ¬ (pyStrip text).length < 10 := by omega
      simp [validate_description, h1, hlt, h]
  · intro w hw hcount
    have h0 : lookupCount [] (pyLower w) = 0 := rfl
    have hrep : repetitionLoop (pySplit (pyStrip text)) [] = true := by
      apply repetitionLoop_true_of_count _ [] (pyLower w) ⟨w, hw, rfl⟩
      rw [h0]
      omega
    by_cases h1 : pyStrip text = ""
    · simp [validate_description, h1]
    · by_cases hlt : (pyStrip text).length < 10
      · simp [validate_description, h1, hlt]
      · by_cases hgt : (pyStrip text).length > 1000
        · simp [validate_description, h1, hlt, hgt]
        · simp [validate_description, h1, hlt, hgt, hrep]

/-- C8 witness: the padded text " tiny " has a stripped length below 10
and is rejected through the length rule of the theorem. -/
theorem c8_witness : (validate_description "  tiny  ").1 = false :=
  (c8_description_validation_on_stripped "  tiny  ").2.1 (by decide)

end CineGen
